import Mathlib

/-!
Shallow embedding of the `postgres_manager` snapshot browser
(`src/postgres_manager/src/ui/browser.rs`, `src/postgres_manager/src/tui.rs`,
`src/postgres_manager/src/ui/renderer.rs`).

Modelling conventions:
* Rust `String` is Lean `String`; slicing/length are over characters (the
  source only slices ASCII configuration strings).
* `f32`/`f64` progress and rate values are modelled as exact rationals `ℚ`
  (the source only divides, subtracts and compares them); division by zero
  follows Lean's `0` convention, a case no claim exercises.
* AWS `DateTime` values are modelled as `Int` instants ordered by `≤`,
  matching the source's use of `cmp` only.
* The S3 gateway is an environment: each call site takes the provider's
  response as an explicit argument (`Except` for fallible calls).
* `Instant::now()` readings during the download are an explicit list of
  sample times handed to the loop.
* Rust's stable `sort_by` with comparator `b.last_modified.cmp(&a.last_modified)`
  is modelled by insertion sort over the same ordering; the claims only
  concern membership and the resulting order of the `last_modified` keys,
  on which every sort with this comparator agrees.

The module `crate::ui::models` is not present in the sources; every shape
below is reconstructed from its uses in `browser.rs` and `renderer.rs`
(field reads/writes, exhaustive matches), except where a doc comment says
`Modelled from the spec:`.
-/

namespace PgOps

/-- Crossterm key codes, restricted to the constructors the dispatcher in
`browser.rs` inspects; every other key falls into `null` (the catch-all). -/
inductive KeyCode where
  | char (c : Char)
  | esc
  | enter
  | tab
  | down
  | up
  | backspace
  | null
  deriving DecidableEq, Repr

/-- `FocusField` from `crate::ui::models`: the fourteen variants and their
cyclic order are read off the exhaustive `Tab` match in `run_app`
(browser.rs lines 509-527).  The Rust variant `Prefix` is spelled
`PrefixFilter` here. -/
inductive FocusField where
  | SnapshotList
  | Bucket
  | Region
  | PrefixFilter
  | EndpointUrl
  | AccessKeyId
  | SecretAccessKey
  | PathStyle
  | PgHost
  | PgPort
  | PgUsername
  | PgPassword
  | PgSsl
  | PgDbName
  deriving DecidableEq, Repr

/-- `InputMode` from `crate::ui::models`, as used in `browser.rs`. -/
inductive InputMode where
  | Normal
  | Editing
  deriving DecidableEq, Repr

/-- `BackupMetadata` (browser.rs usage: `key: String`, `size: i64`,
`last_modified: DateTime`). -/
structure BackupMetadata where
  key : String
  size : Int
  last_modified : Int
  deriving DecidableEq, Repr

/-- `PopupState` from `crate::ui::models`: the variants constructed and
matched in `browser.rs`.  `Downloading`/`ConfirmCancel` carry
(snapshot, progress `f32`, rate `f64`), here (snapshot, ℚ, ℚ). -/
inductive PopupState where
  | Hidden
  | ConfirmRestore
  | ConfirmCancel (snapshot : BackupMetadata) (progress : ℚ) (rate : ℚ)
  | Downloading (snapshot : BackupMetadata) (progress : ℚ) (rate : ℚ)
  | Error (msg : String)
  | Success (msg : String)
  | TestS3Result (msg : String)
  | TestPgResult (msg : String)
  deriving DecidableEq, Repr

/-- `S3Config` as used by `browser.rs` (all string fields are plain
`String`s there: they are assigned from the input buffer and tested with
`is_empty`).  The Rust field `prefix` is spelled `prefix_filter`. -/
structure S3Config where
  bucket : String
  region : String
  prefix_filter : String
  endpoint_url : String
  access_key_id : String
  secret_access_key : String
  path_style : Bool
  error_message : Option String
  deriving DecidableEq, Repr

/-- `PostgresConfig` as used by `browser.rs` and `tui.rs`. `port : u16`
is a `Nat` kept below 65536 by the parser. -/
structure PostgresConfig where
  host : Option String
  port : Option Nat
  username : Option String
  password : Option String
  use_ssl : Bool
  db_name : Option String
  deriving DecidableEq, Repr

/-- The value `S3Client::from_conf` captures in `init_s3_client`
(browser.rs lines 143-171): credentials, region, endpoint URL (after the
`http://` defaulting) and the path-style flag. -/
structure S3Client where
  access_key_id : String
  secret_access_key : String
  region : String
  endpoint_url : Option String
  force_path_style : Bool
  deriving DecidableEq, Repr

/-- One entry of a `list_objects_v2` response: `key`, `size` and
`last_modified` are each optional in the SDK, exactly as `load_snapshots`
destructures them. -/
structure S3Object where
  key : Option String
  size : Option Int
  last_modified : Option Int
  deriving DecidableEq, Repr

/-- A `get_object` response: optional `content_length` and the body as a
stream of chunks, each represented by its byte count (the code only
writes chunks out and takes their lengths). -/
structure GetObjectResp where
  content_length : Option Int
  chunks : List Nat
  deriving DecidableEq, Repr

/-- `SnapshotBrowser` (browser.rs lines 15-26). -/
structure SnapshotBrowser where
  config : S3Config
  pg_config : PostgresConfig
  s3_client : Option S3Client
  snapshots : List BackupMetadata
  selected_idx : Option Nat
  input_mode : InputMode
  input_buffer : String
  focus : FocusField
  popup_state : PopupState
  temp_file : Option String
  deriving DecidableEq, Repr

/-- The gateway calls the key dispatcher can trigger; the async work
itself is performed by the separately embedded operations. -/
inductive Action where
  | none
  | quit
  | testS3
  | testPg
  | refreshKey
  | loadAfterCommit
  | restoreDownload
  deriving DecidableEq, Repr

/-- `SnapshotBrowser::new` (browser.rs lines 91-104). -/
def SnapshotBrowser.new (config : S3Config) (pg_config : PostgresConfig) :
    SnapshotBrowser :=
  { config := config
    pg_config := pg_config
    s3_client := Option.none
    snapshots := []
    selected_idx := Option.none
    input_mode := InputMode.Normal
    input_buffer := ""
    focus := FocusField.SnapshotList
    popup_state := PopupState.Hidden
    temp_file := Option.none }

/-- `verify_s3_settings` (browser.rs lines 106-128): the five required
fields are checked in source order and the first failure is reported. -/
def verify_s3_settings (config : S3Config) : Except String Unit :=
  if config.bucket = "" then Except.error "Bucket name is required"
  else if config.region = "" then Except.error "Region is required"
  else if config.endpoint_url = "" then Except.error "Endpoint URL is required"
  else if config.access_key_id = "" then Except.error "Access Key ID is required"
  else if config.secret_access_key = "" then Except.error "Secret Access Key is required"
  else Except.ok ()

/-- `set_error` (browser.rs lines 130-132). -/
def set_error (b : SnapshotBrowser) (message : Option String) : SnapshotBrowser :=
  { b with config := { b.config with error_message := message } }

/-- The client value built in `init_s3_client` (browser.rs lines 143-170):
endpoint defaulted to `http://…` when it does not start with `http`, and
only set when non-empty. -/
def client_of_config (config : S3Config) : S3Client :=
  { access_key_id := config.access_key_id
    secret_access_key := config.secret_access_key
    region := config.region
    endpoint_url :=
      if config.endpoint_url = "" then Option.none
      else if List.isPrefixOf "http".data config.endpoint_url.data then
        some config.endpoint_url
      else some ("http://" ++ config.endpoint_url)
    force_path_style := config.path_style }

/-- `init_s3_client` (browser.rs lines 134-174): on validation failure the
error message is recorded and the previous client handle survives; on
success the message is cleared and a freshly built client is stored. -/
def init_s3_client (b : SnapshotBrowser) : SnapshotBrowser × Except String Unit :=
  match verify_s3_settings b.config with
  | Except.error e => (set_error b (some e), Except.error e)
  | Except.ok _ =>
      let b := set_error b Option.none
      ({ b with s3_client := some (client_of_config b.config) }, Except.ok ())

/-- The filter in `load_snapshots` (browser.rs line 199): an object is kept
exactly when its key, size and last-modified are all present. -/
def snapshot_of_object (obj : S3Object) : Option BackupMetadata :=
  match obj.key, obj.size, obj.last_modified with
  | some k, some s, some lm => some { key := k, size := s, last_modified := lm }
  | _, _, _ => Option.none

/-- Newest-first comparison used by the sort in `load_snapshots`
(browser.rs line 210): `b.last_modified.cmp(&a.last_modified)`. -/
def newestFirst (a b : BackupMetadata) : Bool :=
  decide (b.last_modified ≤ a.last_modified)

/-- Insert into a newest-first sorted list. -/
def insertDesc (x : BackupMetadata) : List BackupMetadata → List BackupMetadata
  | [] => [x]
  | y :: l => if newestFirst x y then x :: y :: l else y :: insertDesc x l

/-- Sort newest-first, modelling `sort_by(|a, b| b.last_modified.cmp(&a.last_modified))`. -/
def sortDesc : List BackupMetadata → List BackupMetadata
  | [] => []
  | x :: l => insertDesc x (sortDesc l)

/-- The selection adjustment after a successful listing
(browser.rs lines 212-220). -/
def adjust_selection (snapshots : List BackupMetadata) (selected : Option Nat) :
    Option Nat :=
  if snapshots ≠ [] ∧ selected = Option.none then some 0
  else if snapshots = [] then Option.none
  else match selected with
    | some idx => if idx ≥ snapshots.length then some (snapshots.length - 1) else some idx
    | Option.none => Option.none

/-- `load_snapshots` (browser.rs lines 176-229).  `resp` is the provider's
answer to the single `list_objects_v2` call; when the client is absent the
pure part of `init_s3_client` runs first and a failure aborts the call. -/
def load_snapshots (b : SnapshotBrowser) (resp : Except String (List S3Object)) :
    SnapshotBrowser × Except String Unit :=
  let init : SnapshotBrowser × Except String Unit :=
    match b.s3_client with
    | Option.none => init_s3_client b
    | some _ => (b, Except.ok ())
  match init with
  | (b, Except.error e) => (b, Except.error e)
  | (b, Except.ok _) =>
      match resp with
      | Except.ok contents =>
          let snaps := sortDesc (contents.filterMap snapshot_of_object)
          ({ b with
              snapshots := snaps
              selected_idx := adjust_selection snaps b.selected_idx },
            Except.ok ())
      | Except.error e =>
          (set_error b (some ("Failed to list objects: " ++ e)),
            Except.error ("Failed to list objects: " ++ e))

/-- `next` (browser.rs lines 231-239). -/
def next (b : SnapshotBrowser) : SnapshotBrowser :=
  match b.selected_idx with
  | some idx =>
      if idx + 1 < b.snapshots.length then { b with selected_idx := some (idx + 1) } else b
  | Option.none =>
      if b.snapshots ≠ [] then { b with selected_idx := some 0 } else b

/-- `previous` (browser.rs lines 241-249). -/
def previous (b : SnapshotBrowser) : SnapshotBrowser :=
  match b.selected_idx with
  | some idx =>
      if idx > 0 then { b with selected_idx := some (idx - 1) } else b
  | Option.none =>
      if b.snapshots ≠ [] then { b with selected_idx := some (b.snapshots.length - 1) } else b

/-- `selected_snapshot` (browser.rs lines 251-253). -/
def selected_snapshot (b : SnapshotBrowser) : Option BackupMetadata :=
  match b.selected_idx with
  | some idx => b.snapshots.get? idx
  | Option.none => Option.none

/-- The `Tab` focus cycle (browser.rs lines 509-527). -/
def advanceFocus : FocusField → FocusField
  | FocusField.SnapshotList => FocusField.Bucket
  | FocusField.Bucket => FocusField.Region
  | FocusField.Region => FocusField.PrefixFilter
  | FocusField.PrefixFilter => FocusField.EndpointUrl
  | FocusField.EndpointUrl => FocusField.AccessKeyId
  | FocusField.AccessKeyId => FocusField.SecretAccessKey
  | FocusField.SecretAccessKey => FocusField.PathStyle
  | FocusField.PathStyle => FocusField.PgHost
  | FocusField.PgHost => FocusField.PgPort
  | FocusField.PgPort => FocusField.PgUsername
  | FocusField.PgUsername => FocusField.PgPassword
  | FocusField.PgPassword => FocusField.PgSsl
  | FocusField.PgSsl => FocusField.PgDbName
  | FocusField.PgDbName => FocusField.SnapshotList

/-- The fourteen `FocusField` variants in the cycle order starting at
`SnapshotList`. -/
def focusFieldAll : List FocusField :=
  [FocusField.SnapshotList, FocusField.Bucket, FocusField.Region,
   FocusField.PrefixFilter, FocusField.EndpointUrl, FocusField.AccessKeyId,
   FocusField.SecretAccessKey, FocusField.PathStyle, FocusField.PgHost,
   FocusField.PgPort, FocusField.PgUsername, FocusField.PgPassword,
   FocusField.PgSsl, FocusField.PgDbName]

/-- Does a popup match `PopupState::ConfirmCancel(..)`? -/
def PopupState.isConfirmCancel : PopupState → Bool
  | PopupState.ConfirmCancel _ _ _ => true
  | _ => false

/-- The S3 focus group in the 't' dispatch arm (browser.rs lines 486-488). -/
def isS3Field : FocusField → Bool
  | FocusField.Bucket | FocusField.Region | FocusField.PrefixFilter
  | FocusField.EndpointUrl | FocusField.AccessKeyId
  | FocusField.SecretAccessKey | FocusField.PathStyle => true
  | _ => false

/-- The PostgreSQL focus group in the 't' dispatch arm (browser.rs lines 493-494). -/
def isPgField : FocusField → Bool
  | FocusField.PgHost | FocusField.PgPort | FocusField.PgUsername
  | FocusField.PgPassword | FocusField.PgSsl | FocusField.PgDbName => true
  | _ => false

/-- The buffer pre-population on 'e' (browser.rs lines 532-547, repeated at
597-612): the focused field's string representation. -/
def fieldValue (b : SnapshotBrowser) : FocusField → String
  | FocusField.SnapshotList => ""
  | FocusField.Bucket => b.config.bucket
  | FocusField.Region => b.config.region
  | FocusField.PrefixFilter => b.config.prefix_filter
  | FocusField.EndpointUrl => b.config.endpoint_url
  | FocusField.AccessKeyId => b.config.access_key_id
  | FocusField.SecretAccessKey => b.config.secret_access_key
  | FocusField.PathStyle => if b.config.path_style then "true" else "false"
  | FocusField.PgHost => b.pg_config.host.getD ""
  | FocusField.PgPort =>
      match b.pg_config.port with
      | some p => toString p
      | Option.none => ""
  | FocusField.PgUsername => b.pg_config.username.getD ""
  | FocusField.PgPassword => b.pg_config.password.getD ""
  | FocusField.PgSsl => if b.pg_config.use_ssl then "true" else "false"
  | FocusField.PgDbName => b.pg_config.db_name.getD ""

/-- Rust `str::parse::<u16>()`: an optional leading '+', at least one ASCII
digit, and a value that fits in 16 bits. -/
def parse_u16 (s : String) : Option Nat :=
  let ds :=
    match s.data with
    | '+' :: rest => rest
    | l => l
  if ds = [] then Option.none
  else if ds.all Char.isDigit then
    let v := ds.foldl (fun a c => a * 10 + (c.toNat - 48)) 0
    if v < 65536 then some v else Option.none
  else Option.none

/-- The field assignment on committing an edit (browser.rs lines 624-654):
`input_mode` has already been reset by the caller; a non-numeric port
buffer surfaces the Error popup and leaves the field unchanged. -/
def commitField (b : SnapshotBrowser) : SnapshotBrowser :=
  match b.focus with
  | FocusField.Bucket =>
      { b with config := { b.config with bucket := b.input_buffer } }
  | FocusField.Region =>
      { b with config := { b.config with region := b.input_buffer } }
  | FocusField.PrefixFilter =>
      { b with config := { b.config with prefix_filter := b.input_buffer } }
  | FocusField.EndpointUrl =>
      { b with config := { b.config with endpoint_url := b.input_buffer } }
  | FocusField.AccessKeyId =>
      { b with config := { b.config with access_key_id := b.input_buffer } }
  | FocusField.SecretAccessKey =>
      { b with config := { b.config with secret_access_key := b.input_buffer } }
  | FocusField.PathStyle =>
      { b with config := { b.config with path_style := b.input_buffer.toLower = "true" } }
  | FocusField.PgHost =>
      { b with pg_config := { b.pg_config with host := some b.input_buffer } }
  | FocusField.PgPort =>
      if b.input_buffer = "" then
        { b with pg_config := { b.pg_config with port := Option.none } }
      else
        match parse_u16 b.input_buffer with
        | some p => { b with pg_config := { b.pg_config with port := some p } }
        | Option.none => { b with popup_state := PopupState.Error "Invalid port number" }
  | FocusField.PgUsername =>
      { b with pg_config := { b.pg_config with username := some b.input_buffer } }
  | FocusField.PgPassword =>
      { b with pg_config := { b.pg_config with password := some b.input_buffer } }
  | FocusField.PgSsl =>
      { b with pg_config := { b.pg_config with use_ssl := b.input_buffer.toLower = "true" } }
  | FocusField.PgDbName =>
      { b with pg_config := { b.pg_config with db_name := some b.input_buffer } }
  | FocusField.SnapshotList => b

/-- The `InputMode::Normal` key dispatch of `run_app` (browser.rs lines
424-616), arm for arm in source order.  Gateway calls become `Action`s. -/
def handleKeyNormal (b : SnapshotBrowser) (k : KeyCode) : SnapshotBrowser × Action :=
  match k with
  | KeyCode.char c =>
      if c = 'q' then (b, Action.quit)
      else if c = 'y' ∧ b.popup_state.isConfirmCancel then
        ({ b with popup_state := PopupState.Hidden, temp_file := Option.none }, Action.none)
      else if c = 'y' ∧ b.popup_state = PopupState.ConfirmRestore then
        if (selected_snapshot b).isSome then (b, Action.restoreDownload) else (b, Action.none)
      else if c = 'n' then
        match b.popup_state with
        | PopupState.ConfirmCancel s p r =>
            ({ b with popup_state := PopupState.Downloading s p r }, Action.none)
        | PopupState.ConfirmRestore =>
            ({ b with popup_state := PopupState.Hidden }, Action.none)
        | _ => ({ b with focus := FocusField.PgDbName }, Action.none)
      else if c = 't' then
        if isS3Field b.focus then (b, Action.testS3)
        else if isPgField b.focus then (b, Action.testPg)
        else (b, Action.none)
      else if c = 'e' ∧ b.focus ≠ FocusField.SnapshotList then
        ({ b with input_mode := InputMode.Editing,
                  input_buffer := fieldValue b b.focus }, Action.none)
      else if c = 'b' then ({ b with focus := FocusField.Bucket }, Action.none)
      else if c = 'R' then ({ b with focus := FocusField.Region }, Action.none)
      else if c = 'x' then ({ b with focus := FocusField.PrefixFilter }, Action.none)
      else if c = 'j' ∧ b.focus = FocusField.SnapshotList then (next b, Action.none)
      else if c = 'k' ∧ b.focus = FocusField.SnapshotList then (previous b, Action.none)
      else if c = 'E' then ({ b with focus := FocusField.EndpointUrl }, Action.none)
      else if c = 'a' then ({ b with focus := FocusField.AccessKeyId }, Action.none)
      else if c = 's' then ({ b with focus := FocusField.SecretAccessKey }, Action.none)
      else if c = 'h' then ({ b with focus := FocusField.PgHost }, Action.none)
      else if c = 'p' then ({ b with focus := FocusField.PgPort }, Action.none)
      else if c = 'u' then ({ b with focus := FocusField.PgUsername }, Action.none)
      else if c = 'f' then ({ b with focus := FocusField.PgPassword }, Action.none)
      else if c = 'l' then ({ b with focus := FocusField.PgSsl }, Action.none)
      else if c = 'r' then (b, Action.refreshKey)
      else if c = 'e' then
        ({ b with input_mode := InputMode.Editing,
                  input_buffer := fieldValue b b.focus }, Action.none)
      else (b, Action.none)
  | KeyCode.esc =>
      match b.popup_state with
      | PopupState.Downloading s p r =>
          ({ b with popup_state := PopupState.ConfirmCancel s p r }, Action.none)
      | PopupState.ConfirmRestore =>
          ({ b with popup_state := PopupState.Hidden }, Action.none)
      | PopupState.TestS3Result _ =>
          ({ b with popup_state := PopupState.Hidden }, Action.none)
      | PopupState.TestPgResult _ =>
          ({ b with popup_state := PopupState.Hidden }, Action.none)
      | _ => (b, Action.none)
  | KeyCode.enter =>
      if b.focus = FocusField.SnapshotList ∧ (selected_snapshot b).isSome then
        ({ b with popup_state := PopupState.ConfirmRestore }, Action.none)
      else (b, Action.none)
  | KeyCode.tab => ({ b with focus := advanceFocus b.focus }, Action.none)
  | KeyCode.down =>
      if b.focus = FocusField.SnapshotList then (next b, Action.none) else (b, Action.none)
  | KeyCode.up =>
      if b.focus = FocusField.SnapshotList then (previous b, Action.none) else (b, Action.none)
  | _ => (b, Action.none)

/-- The `InputMode::Editing` key dispatch of `run_app` (browser.rs lines
617-677).  On Enter outside the snapshot list the field is committed,
`init_s3_client` runs, and on success a (silent) listing is requested. -/
def handleKeyEditing (b : SnapshotBrowser) (k : KeyCode) : SnapshotBrowser × Action :=
  match k with
  | KeyCode.enter =>
      if b.focus = FocusField.SnapshotList then
        ({ b with popup_state := PopupState.ConfirmRestore }, Action.none)
      else
        let b := { b with input_mode := InputMode.Normal }
        let b := commitField b
        match init_s3_client b with
        | (b, Except.ok _) => (b, Action.loadAfterCommit)
        | (b, Except.error _) => (b, Action.none)
  | KeyCode.char c => ({ b with input_buffer := b.input_buffer.push c }, Action.none)
  | KeyCode.backspace => ({ b with input_buffer := b.input_buffer.dropRight 1 }, Action.none)
  | KeyCode.esc => ({ b with input_mode := InputMode.Normal }, Action.none)
  | _ => (b, Action.none)

/-- The full key dispatch: the `match browser.input_mode` at run_app
line 423. -/
def handleKey (b : SnapshotBrowser) (k : KeyCode) : SnapshotBrowser × Action :=
  match b.input_mode with
  | InputMode.Normal => handleKeyNormal b k
  | InputMode.Editing => handleKeyEditing b k

/-- `test_s3_connection` (browser.rs lines 29-56), with the
`list_buckets` response as an oracle (list of bucket names). -/
def test_s3_connection (b : SnapshotBrowser) (resp : Except String (List String)) :
    SnapshotBrowser × Except String Unit :=
  let init : SnapshotBrowser × Except String Unit :=
    match b.s3_client with
    | Option.none =>
        match init_s3_client b with
        | (b, Except.error e) =>
            ({ b with popup_state :=
                PopupState.Error ("Failed to initialize S3 client: " ++ e) },
              Except.error e)
        | (b, Except.ok _) => (b, Except.ok ())
    | some _ => (b, Except.ok ())
  match init with
  | (b, Except.error e) => (b, Except.error e)
  | (b, Except.ok _) =>
      match resp with
      | Except.ok buckets =>
          let names := if buckets = [] then "None" else String.intercalate ", " buckets
          let msg := "Successfully connected to S3!\nAvailable buckets: " ++ names
          ({ b with popup_state := PopupState.TestS3Result msg }, Except.ok ())
      | Except.error e =>
          let msg := "Failed to connect to S3: " ++ e
          ({ b with popup_state := PopupState.Error msg }, Except.error msg)

/-- `test_pg_connection` (browser.rs lines 58-89): validation then the
connection string popup. -/
def test_pg_connection (b : SnapshotBrowser) : SnapshotBrowser × Except String Unit :=
  if (match b.pg_config.host with
      | Option.none => true
      | some h => h = "" : Bool) then
    ({ b with popup_state := PopupState.Error "PostgreSQL host is required" },
      Except.error "PostgreSQL host is required")
  else if b.pg_config.port = Option.none then
    ({ b with popup_state := PopupState.Error "PostgreSQL port is required" },
      Except.error "PostgreSQL port is required")
  else if (match b.pg_config.username with
      | Option.none => true
      | some u => u = "" : Bool) then
    ({ b with popup_state := PopupState.Error "PostgreSQL username is required" },
      Except.error "PostgreSQL username is required")
  else
    let conn := "host=" ++ b.pg_config.host.getD "" ++
      " port=" ++ toString (b.pg_config.port.getD 0) ++
      " user=" ++ b.pg_config.username.getD "" ++
      " password=" ++ b.pg_config.password.getD "" ++ " " ++
      (if b.pg_config.use_ssl then "sslmode=require " else "") ++
      (match b.pg_config.db_name with
       | some db => "dbname=" ++ db
       | Option.none => "")
    ({ b with popup_state := PopupState.TestPgResult ("Connection string: " ++ conn) },
      Except.ok ())

/-- The 't' key application in `run_app` (lines 489-491): a failed S3 test
is re-wrapped in an `Error("Error: …")` popup. -/
def run_test_s3 (b : SnapshotBrowser) (resp : Except String (List String)) :
    SnapshotBrowser :=
  match test_s3_connection b resp with
  | (b, Except.ok _) => b
  | (b, Except.error e) => { b with popup_state := PopupState.Error ("Error: " ++ e) }

/-- The 't' key application in `run_app` (lines 495-497) for PostgreSQL. -/
def run_test_pg (b : SnapshotBrowser) : SnapshotBrowser :=
  match test_pg_connection b with
  | (b, Except.ok _) => b
  | (b, Except.error e) => { b with popup_state := PopupState.Error ("Error: " ++ e) }

/-- The 'r' key application in `run_app` (lines 588-593): a failed listing
surfaces `Error("Error: …")`. -/
def run_refresh (b : SnapshotBrowser) (resp : Except String (List S3Object)) :
    SnapshotBrowser :=
  match load_snapshots b resp with
  | (b, Except.ok _) => b
  | (b, Except.error e) => { b with popup_state := PopupState.Error ("Error: " ++ e) }

/-- The listing triggered after a successful commit (run_app lines 660-663)
and the initial load (lines 412-414): failures are only logged. -/
def run_load_silent (b : SnapshotBrowser) (resp : Except String (List S3Object)) :
    SnapshotBrowser :=
  (load_snapshots b resp).1

/-- The Success-popup timeout at the bottom of the event loop
(run_app lines 683-686). -/
def clear_success (b : SnapshotBrowser) : SnapshotBrowser :=
  match b.popup_state with
  | PopupState.Success _ => { b with popup_state := PopupState.Hidden }
  | _ => b

/-- Result of `download_snapshot`: the final browser, the returned
`Option<String>`, and the number of bytes read from the stream and written
to the temporary file (each chunk is written before anything else). -/
structure DownloadOutcome where
  browser : SnapshotBrowser
  result : Option String
  written : Nat
  deriving DecidableEq, Repr

/-- The chunk loop of `download_snapshot` (browser.rs lines 285-334).
State per iteration: remaining chunks, pending per-iteration key events
(`poll`/`read` sees at most one per pass), remaining `Instant::now()`
samples, the browser, bytes downloaded, the last rate-sample time, the
bytes counted at that sample, and the current rate.  Note that both
`continue` statements in the source re-enter the `while let`, i.e. they
pull the next chunk. -/
def download_loop (snapshot : BackupMetadata) (temp_path : String) (total : Int) :
    List Nat → List (Option KeyCode) → List ℚ → SnapshotBrowser →
    Nat → ℚ → Nat → ℚ → DownloadOutcome
  | [], _, _, b, downloaded, _, _, _ =>
      { browser := { b with
          temp_file := some temp_path
          popup_state := PopupState.Success "Download complete" }
        result := some temp_path
        written := downloaded }
  | chunk :: rest, events, times, b, downloaded, last_update, last_bytes, current_rate =>
      let downloaded := downloaded + chunk
      let progress : ℚ := (downloaded : ℚ) / (total : ℚ)
      let now : ℚ := times.headD last_update
      let elapsed : ℚ := now - last_update
      let sample := elapsed ≥ 1/2
      let current_rate :=
        if sample then ((downloaded - last_bytes : ℕ) : ℚ) / elapsed else current_rate
      let last_update' := if sample then now else last_update
      let last_bytes' := if sample then downloaded else last_bytes
      if events.headD Option.none = some KeyCode.esc then
        download_loop snapshot temp_path total rest events.tail times.tail
          { b with popup_state := PopupState.ConfirmCancel snapshot progress current_rate }
          downloaded last_update' last_bytes' current_rate
      else
        match b.popup_state with
        | PopupState.ConfirmCancel _ _ _ =>
            download_loop snapshot temp_path total rest events.tail times.tail
              b downloaded last_update' last_bytes' current_rate
        | PopupState.Hidden =>
            { browser := { b with temp_file := Option.none }
              result := Option.none
              written := downloaded }
        | _ =>
            download_loop snapshot temp_path total rest events.tail times.tail
              { b with popup_state := PopupState.Downloading snapshot progress current_rate }
              downloaded last_update' last_bytes' current_rate

/-- `download_snapshot` (browser.rs lines 255-359).  The popup and the
temporary-file path are recorded *before* the client check and the GET
request (lines 262-263); a missing client, a failed request, or a missing
content length each surface an Error popup and return `None` without
touching `temp_file` again. -/
def download_snapshot (b : SnapshotBrowser) (snapshot : BackupMetadata)
    (temp_path : String) (resp : Except String GetObjectResp)
    (events : List (Option KeyCode)) (times : List ℚ) (start_time : ℚ) :
    DownloadOutcome :=
  let b := { b with
    popup_state := PopupState.Downloading snapshot 0 0
    temp_file := some temp_path }
  match b.s3_client with
  | Option.none =>
      { browser := { b with popup_state := PopupState.Error "S3 client not initialized" }
        result := Option.none, written := 0 }
  | some _ =>
      match resp with
      | Except.error e =>
          let msg := "Failed to download backup: " ++ e
          { browser := { b with popup_state := PopupState.Error msg }
            result := Option.none, written := 0 }
      | Except.ok r =>
          match r.content_length with
          | Option.none =>
              let msg := "Could not determine file size"
              { browser := { b with popup_state := PopupState.Error msg }
                result := Option.none, written := 0 }
          | some total =>
              download_loop snapshot temp_path total r.chunks events times b 0 start_time 0 0

/-- `mask_key` (tui.rs lines 805-814): length ≤ 8 masks fully; otherwise
first four characters, five dots, last four characters. -/
def mask_key (key : String) : String :=
  if key.length ≤ 8 then String.mk (List.replicate key.length '*')
  else key.take 4 ++ "....." ++ key.drop (key.length - 4)

/-- The PostgreSQL password line in the legacy renderer
(tui.rs line 883): the password is masked through `mask_key`. -/
def tui_masked_pg_password (pg : PostgresConfig) : String :=
  mask_key (pg.password.getD "")

/-- The PostgreSQL password line in the ui renderer
(renderer.rs line 227): a fixed eight-asterisk mask whenever a password is
set, regardless of its length. -/
def renderer_password_text (pg : PostgresConfig) : String :=
  "Password: " ++ (if pg.password.isSome then "********" else "")

/-- Modelled from the spec: `S3Config::masked_secret_key`, called at
renderer.rs line 149, lives in the missing `crate::ui::models` module.
Spec §4.5 renders secret fields "through a masking function: strings of
length ≤ 8 render as `*` repeated to the original length; longer strings
render as first-4-chars + fixed separator + last-4-chars" — the `mask_key`
function of tui.rs. -/
def masked_secret_key (config : S3Config) : String :=
  mask_key config.secret_access_key

/-- The secret-key line of the ui renderer (renderer.rs line 149). -/
def renderer_secret_key_text (config : S3Config) : String :=
  "Secret Access Key: " ++ masked_secret_key config

/-- The session states reachable by the event loop: the initial browser of
`run_tui`, the initial listing, key dispatch, the gateway-result
applications of `run_app`, the download pipeline, and the Success-popup
timeout.  Gateway responses are universally quantified oracles. -/
inductive Reachable : SnapshotBrowser → Prop
  | init (config : S3Config) (pg : PostgresConfig) :
      Reachable (SnapshotBrowser.new config pg)
  | key (b : SnapshotBrowser) (k : KeyCode) :
      Reachable b → Reachable (handleKey b k).1
  | testS3 (b : SnapshotBrowser) (resp : Except String (List String)) :
      Reachable b → Reachable (run_test_s3 b resp)
  | testPg (b : SnapshotBrowser) :
      Reachable b → Reachable (run_test_pg b)
  | refresh (b : SnapshotBrowser) (resp : Except String (List S3Object)) :
      Reachable b → Reachable (run_refresh b resp)
  | load (b : SnapshotBrowser) (resp : Except String (List S3Object)) :
      Reachable b → Reachable (run_load_silent b resp)
  | download (b : SnapshotBrowser) (snapshot : BackupMetadata)
      (temp_path : String) (resp : Except String GetObjectResp)
      (events : List (Option KeyCode)) (times : List ℚ) (start_time : ℚ) :
      Reachable b →
      Reachable (download_snapshot b snapshot temp_path resp events times start_time).browser
  | success_timeout (b : SnapshotBrowser) :
      Reachable b → Reachable (clear_success b)

/-! Shared concrete values for scenario statements and witnesses. -/

/-- A fully populated `S3Config`. -/
def cfgFull : S3Config :=
  { bucket := "backups", region := "us-east-1", prefix_filter := ""
    endpoint_url := "http://minio.local:9000", access_key_id := "AKIAEXAMPLE"
    secret_access_key := "SECRETKEYEXAMPLE", path_style := true
    error_message := Option.none }

/-- `PostgresConfig::default()`. -/
def pgDefault : PostgresConfig :=
  { host := Option.none, port := Option.none, username := Option.none
    password := Option.none, use_ssl := false, db_name := Option.none }

/-- The browser `run_tui` starts from, with the full configuration. -/
def baseBrowser : SnapshotBrowser := SnapshotBrowser.new cfgFull pgDefault

/-- A browser with a constructed client. -/
def dlBrowser : SnapshotBrowser :=
  { baseBrowser with s3_client := some (client_of_config cfgFull) }

/-- Two listed snapshots. -/
def snapA : BackupMetadata := { key := "daily/a.sql", size := 100, last_modified := 100 }

/-- The newer of the two listed snapshots. -/
def snapB : BackupMetadata := { key := "daily/b.sql", size := 200, last_modified := 200 }

/-- A listing entry with complete metadata (older). -/
def objA : S3Object :=
  { key := some "daily/a.sql", size := some 100, last_modified := some 100 }

/-- A listing entry with complete metadata (newer). -/
def objB : S3Object :=
  { key := some "daily/b.sql", size := some 200, last_modified := some 200 }

/-- A listing entry missing `last_modified`. -/
def objNoDate : S3Object :=
  { key := some "daily/c.sql", size := some 300, last_modified := Option.none }

/-! Ordering facts about the listing sort. -/

/-- `insertDesc` inserts, up to permutation. -/
theorem insertDesc_perm (x : BackupMetadata) (l : List BackupMetadata) :
    List.Perm (insertDesc x l) (x :: l) := by
  induction l with
  | nil => rfl
  | cons y l ih =>
      unfold insertDesc
      split
      · rfl
      · exact (ih.cons y).trans (List.Perm.swap x y l)

/-- `sortDesc` permutes its input. -/
theorem sortDesc_perm (l : List BackupMetadata) : List.Perm (sortDesc l) l := by
  induction l with
  | nil => rfl
  | cons x l ih => exact (insertDesc_perm x (sortDesc l)).trans (ih.cons x)

/-- `insertDesc` preserves the newest-first ordering. -/
theorem insertDesc_pairwise (x : BackupMetadata) (l : List BackupMetadata)
    (h : l.Pairwise fun a c => c.last_modified ≤ a.last_modified) :
    (insertDesc x l).Pairwise fun a c => c.last_modified ≤ a.last_modified := by
  induction l with
  | nil => simp [insertDesc]
  | cons y l ih =>
      rcases List.pairwise_cons.mp h with ⟨hy, hl⟩
      unfold insertDesc
      split_ifs with hxy
      · simp only [newestFirst, decide_eq_true_eq] at hxy
        refine List.Pairwise.cons ?_ h
        intro z hz
        rcases List.mem_cons.mp hz with hz | hz
        · exact hz ▸ hxy
        · exact le_trans (hy z hz) hxy
      · simp only [newestFirst, decide_eq_true_eq] at hxy
        refine List.Pairwise.cons ?_ (ih hl)
        intro z hz
        rcases List.mem_cons.mp ((insertDesc_perm x l).mem_iff.mp hz) with hz | hz
        · exact hz ▸ le_of_not_le hxy
        · exact hy z hz

/-- `sortDesc` sorts newest first. -/
theorem sortDesc_pairwise (l : List BackupMetadata) :
    (sortDesc l).Pairwise fun a c => c.last_modified ≤ a.last_modified := by
  induction l with
  | nil => simp [sortDesc]
  | cons x l ih => exact insertDesc_pairwise x (sortDesc l) ih

/-- The clamped-selection invariant of the Session. -/
def SelInv (b : SnapshotBrowser) : Prop :=
  ∀ i, b.selected_idx = some i → i < b.snapshots.length

/-- C8: starting from any `FocusField`, fourteen applications of the Tab
focus advance return to the starting field; the fourteen variants form a
single fixed cycle that ends and begins at the snapshot list, and the Tab
key applies exactly this advance. -/
theorem C8_focus_cycle :
    (∀ f : FocusField, advanceFocus^[14] f = f) ∧
    advanceFocus FocusField.PgDbName = FocusField.SnapshotList ∧
    advanceFocus FocusField.SnapshotList = FocusField.Bucket ∧
    focusFieldAll.length = 14 ∧
    (∀ f : FocusField, f ∈ focusFieldAll) ∧
    focusFieldAll.Nodup ∧
    (List.range 14).map (fun n => advanceFocus^[n] FocusField.SnapshotList) = focusFieldAll ∧
    (∀ b : SnapshotBrowser,
      (handleKeyNormal b KeyCode.tab).1.focus = advanceFocus b.focus) := by
  refine ⟨fun f => by cases f <;> rfl, rfl, rfl, rfl,
    fun f => by cases f <;> simp [focusFieldAll], by decide, by decide,
    fun b => rfl⟩

/-- C9 counterexample: in the ui renderer (renderer.rs line 227) a set
database password of length 12 is rendered as the fixed eight-asterisk
string, not through the masking function (`mask_key` would give
`ABCD.....EFGH`); a length-4 password likewise renders as eight
asterisks, not four. -/
theorem C9_counterexample :
    renderer_password_text { pgDefault with password := some "ABCD1234EFGH" } =
      "Password: ********" ∧
    mask_key "ABCD1234EFGH" = "ABCD.....EFGH" ∧
    renderer_password_text { pgDefault with password := some "ABCD1234EFGH" } ≠
      "Password: " ++ mask_key "ABCD1234EFGH" ∧
    renderer_password_text { pgDefault with password := some "ABCD" } ≠
      "Password: " ++ mask_key "ABCD" := by
  refine ⟨rfl, by decide, by decide, by decide⟩

/-- C9 (amended): the masking function renders a secret of length at most
8 as `*` repeated to the original length and a longer secret as its first
four characters, five dots, then its last four characters
(`ABCD1234EFGH` ↦ `ABCD.....EFGH`); the secret access key is rendered
through it, and so is the database password in the legacy tui renderer —
but the ui renderer renders a set database password as the fixed string
`********` regardless of its length. -/
theorem C9_masking (s : String) :
    (s.length ≤ 8 → mask_key s = String.mk (List.replicate s.length '*')) ∧
    (8 < s.length →
      mask_key s = s.take 4 ++ "....." ++ s.drop (s.length - 4)) ∧
    mask_key "ABCD1234EFGH" = "ABCD.....EFGH" ∧
    mask_key "ABCD" = "****" ∧
    (∀ cfg : S3Config, renderer_secret_key_text cfg =
      "Secret Access Key: " ++ mask_key cfg.secret_access_key) ∧
    (∀ pg : PostgresConfig, tui_masked_pg_password pg = mask_key (pg.password.getD "")) ∧
    (∀ pg : PostgresConfig, ∀ p, pg.password = some p →
      renderer_password_text pg = "Password: ********") := by
  refine ⟨fun h => by simp [mask_key, h], fun h => by simp [mask_key, Nat.not_le.mpr h],
    by decide, by decide, fun cfg => rfl, fun pg => rfl, fun pg p hp => ?_⟩
  simp [renderer_password_text, hp]

/-- C9 witness: the masking rules evaluated at the claim's two examples. -/
theorem C9_masking_witness :
    ((8 < ("ABCD1234EFGH" : String).length →
        mask_key "ABCD1234EFGH" =
          ("ABCD1234EFGH" : String).take 4 ++ "....." ++
            ("ABCD1234EFGH" : String).drop (("ABCD1234EFGH" : String).length - 4)) ∧
      (("ABCD" : String).length ≤ 8 →
        mask_key "ABCD" = String.mk (List.replicate ("ABCD" : String).length '*'))) ∧
    8 < ("ABCD1234EFGH" : String).length ∧ ("ABCD" : String).length ≤ 8 := by
  exact ⟨⟨(C9_masking "ABCD1234EFGH").2.1, (C9_masking "ABCD").1⟩, by decide, by decide⟩

/-- C10: with a non-empty snapshot list and no selection, moving down
selects index 0 and moving up selects the last index; with an empty list
both moves leave the selection absent. -/
theorem C10_unselected_moves (b : SnapshotBrowser)
    (h : b.selected_idx = Option.none) :
    (b.snapshots ≠ [] →
      (next b).selected_idx = some 0 ∧
      (previous b).selected_idx = some (b.snapshots.length - 1)) ∧
    (b.snapshots = [] →
      (next b).selected_idx = Option.none ∧
      (previous b).selected_idx = Option.none) := by
  unfold next previous
  rw [h]
  constructor
  · intro h2
    simp [h2]
  · intro h2
    simp [h2, h]

/-- C10 witness: the moves evaluated on a two-snapshot browser with no
selection and on the empty browser. -/
theorem C10_unselected_moves_witness :
    ({ dlBrowser with snapshots := [snapB, snapA] } : SnapshotBrowser).selected_idx =
      Option.none ∧
    ((({ dlBrowser with snapshots := [snapB, snapA] } : SnapshotBrowser).snapshots ≠ [] →
      (next { dlBrowser with snapshots := [snapB, snapA] }).selected_idx = some 0 ∧
      (previous { dlBrowser with snapshots := [snapB, snapA] }).selected_idx =
        some (({ dlBrowser with snapshots := [snapB, snapA] } : SnapshotBrowser).snapshots.length - 1)) ∧
     (({ dlBrowser with snapshots := [snapB, snapA] } : SnapshotBrowser).snapshots = [] →
      (next { dlBrowser with snapshots := [snapB, snapA] }).selected_idx = Option.none ∧
      (previous { dlBrowser with snapshots := [snapB, snapA] }).selected_idx = Option.none)) := by
  exact ⟨rfl, C10_unselected_moves { dlBrowser with snapshots := [snapB, snapA] } rfl⟩

/-- Whatever index the listing's selection adjustment yields is in range. -/
theorem adjust_selection_lt (snaps : List BackupMetadata) (sel : Option Nat) (i : Nat)
    (h : adjust_selection snaps sel = some i) : i < snaps.length := by
  unfold adjust_selection at h
  by_cases h1 : snaps ≠ [] ∧ sel = Option.none
  · rw [if_pos h1] at h
    obtain rfl : (0 : Nat) = i := by injection h
    exact List.length_pos.mpr h1.1
  · rw [if_neg h1] at h
    by_cases h2 : snaps = []
    · rw [if_pos h2] at h
      exact absurd h (by simp)
    · rw [if_neg h2] at h
      have hlen : 0 < snaps.length := List.length_pos.mpr h2
      rcases sel with _ | idx

      · exact absurd h (by simp)
      · by_cases h3 : idx ≥ snaps.length
        · rw [show (match some idx with
              | some idx => if idx ≥ snaps.length then some (snaps.length - 1) else some idx
              | Option.none => (Option.none : Option Nat)) =
              if idx ≥ snaps.length then some (snaps.length - 1) else some idx from rfl,
            if_pos h3] at h
          obtain rfl : snaps.length - 1 = i := by injection h
          omega
        · rw [show (match some idx with
              | some idx => if idx ≥ snaps.length then some (snaps.length - 1) else some idx
              | Option.none => (Option.none : Option Nat)) =
              if idx ≥ snaps.length then some (snaps.length - 1) else some idx from rfl,
            if_neg h3] at h
          obtain rfl : idx = i := by injection h
          omega

/-- A listing either leaves the snapshot list and selection untouched (the
failure paths) or installs the sorted filtered result with the adjusted
selection. -/
theorem load_snapshots_cases (b : SnapshotBrowser) (resp : Except String (List S3Object)) :
    ((load_snapshots b resp).1.snapshots = b.snapshots ∧
      (load_snapshots b resp).1.selected_idx = b.selected_idx) ∨
    (∃ contents, resp = Except.ok contents ∧
      (load_snapshots b resp).2 = Except.ok () ∧
      (load_snapshots b resp).1.snapshots =
        sortDesc (contents.filterMap snapshot_of_object) ∧
      (load_snapshots b resp).1.selected_idx =
        adjust_selection (sortDesc (contents.filterMap snapshot_of_object))
          b.selected_idx) := by
  unfold load_snapshots
  rcases hc : b.s3_client with _ | c
  · simp only [hc]
    unfold init_s3_client
    rcases hv : verify_s3_settings b.config with e | u
    · simp [set_error]
    · rcases resp with e | contents
      · simp [set_error]
      · exact Or.inr ⟨contents, rfl, by simp [set_error], by simp [set_error],
          by simp [set_error]⟩
  · simp only [hc]
    rcases resp with e | contents
    · simp [set_error]
    · exact Or.inr ⟨contents, rfl, by simp, by simp, by simp⟩

/-- On any listing failure the snapshot list and the selection are exactly
what they were before the call. -/
theorem load_snapshots_error_preserves (b : SnapshotBrowser)
    (resp : Except String (List S3Object)) (e : String)
    (herr : (load_snapshots b resp).2 = Except.error e) :
    (load_snapshots b resp).1.snapshots = b.snapshots ∧
    (load_snapshots b resp).1.selected_idx = b.selected_idx := by
  rcases load_snapshots_cases b resp with h | ⟨contents, rfl, hok, hsnap, hsel⟩
  · exact h
  · rw [hok] at herr
    exact Except.noConfusion herr

/-- C5: a successful listing replaces the snapshot sequence with exactly
the returned entries that carry both a size and a last-modified timestamp
(given the gateway's guarantee that every entry has a key), sorted with
the most recent first; listing three objects of which one lacks
`last_modified` yields the two complete entries, newest first. -/
theorem C5_listing (b : SnapshotBrowser) (contents : List S3Object)
    (hclient : b.s3_client ≠ Option.none)
    (hkeys : ∀ o ∈ contents, o.key ≠ Option.none) :
    ((load_snapshots b (Except.ok contents)).1.snapshots =
        sortDesc (contents.filterMap snapshot_of_object) ∧
      List.Perm (load_snapshots b (Except.ok contents)).1.snapshots
        (contents.filterMap snapshot_of_object) ∧
      ((load_snapshots b (Except.ok contents)).1.snapshots).Pairwise
        (fun a c => c.last_modified ≤ a.last_modified) ∧
      (∀ o ∈ contents, (snapshot_of_object o ≠ Option.none ↔
        (o.size ≠ Option.none ∧ o.last_modified ≠ Option.none)))) ∧
    ((load_snapshots dlBrowser (Except.ok [objA, objB, objNoDate])).1.snapshots =
        [snapB, snapA] ∧
      (load_snapshots dlBrowser (Except.ok [objA, objB, objNoDate])).1.snapshots.length
        = 2) := by
  rcases hc : b.s3_client with _ | c
  · exact absurd hc hclient
  · have hsnap : (load_snapshots b (Except.ok contents)).1.snapshots =
        sortDesc (contents.filterMap snapshot_of_object) := by
      unfold load_snapshots
      simp [hc]
    refine ⟨⟨hsnap, ?_, ?_, ?_⟩, by decide, by decide⟩
    · exact hsnap ▸ (sortDesc_perm _).trans (List.Perm.refl _)
    · exact hsnap ▸ sortDesc_pairwise _
    · intro o ho
      have hk := hkeys o ho
      rcases o with ⟨k, sz, lm⟩
      rcases k with _ | k
      · exact absurd rfl hk
      · rcases sz with _ | sz <;> rcases lm with _ | lm <;>
          simp [snapshot_of_object]

/-- C5 witness: the general listing property instantiated at the
three-object scenario listing. -/
theorem C5_listing_witness :
    dlBrowser.s3_client ≠ Option.none ∧
    (∀ o ∈ [objA, objB, objNoDate], o.key ≠ Option.none) ∧
    ((load_snapshots dlBrowser (Except.ok [objA, objB, objNoDate])).1.snapshots =
      sortDesc ([objA, objB, objNoDate].filterMap snapshot_of_object)) := by
  refine ⟨by simp [dlBrowser, baseBrowser, SnapshotBrowser.new], by decide, ?_⟩
  exact (C5_listing dlBrowser [objA, objB, objNoDate]
    (by simp [dlBrowser, baseBrowser, SnapshotBrowser.new]) (by decide)).1.1

/-- C6: when the listing fails — client construction failing validation
(an empty bucket yields the validation error naming the bucket) or the
provider's listing call returning an error — the previous snapshot list
and selection are unchanged. -/
theorem C6_failure_preserves (b : SnapshotBrowser)
    (resp : Except String (List S3Object)) (e : String)
    (herr : (load_snapshots b resp).2 = Except.error e) :
    ((load_snapshots b resp).1.snapshots = b.snapshots ∧
      (load_snapshots b resp).1.selected_idx = b.selected_idx) ∧
    (∀ cfg : S3Config, cfg.bucket = "" →
      verify_s3_settings cfg = Except.error "Bucket name is required") ∧
    (b.s3_client = Option.none → b.config.bucket = "" →
      e = "Bucket name is required") := by
  refine ⟨load_snapshots_error_preserves b resp e herr, ?_, ?_⟩
  · intro cfg hb
    simp [verify_s3_settings, hb]
  · intro hc hb
    unfold load_snapshots at herr
    simp only [hc] at herr
    unfold init_s3_client at herr
    have hv : verify_s3_settings b.config = Except.error "Bucket name is required" := by
      simp [verify_s3_settings, hb]
    simp only [hv] at herr
    exact (Except.error.injEq _ _).mp herr.symm

/-- C6 witness: a browser with an empty bucket and no client: the listing
fails with the bucket validation error and the list and selection are
untouched. -/
theorem C6_failure_preserves_witness :
    ((load_snapshots { baseBrowser with config := { cfgFull with bucket := "" } }
        (Except.ok [objA])).2 = Except.error "Bucket name is required") ∧
    ((load_snapshots { baseBrowser with config := { cfgFull with bucket := "" } }
        (Except.ok [objA])).1.snapshots =
      ({ baseBrowser with config := { cfgFull with bucket := "" } } : SnapshotBrowser).snapshots ∧
     (load_snapshots { baseBrowser with config := { cfgFull with bucket := "" } }
        (Except.ok [objA])).1.selected_idx =
      ({ baseBrowser with config := { cfgFull with bucket := "" } } : SnapshotBrowser).selected_idx) := by
  have h : (load_snapshots { baseBrowser with config := { cfgFull with bucket := "" } }
      (Except.ok [objA])).2 = Except.error "Bucket name is required" := rfl
  exact ⟨h, (C6_failure_preserves _ _ _ h).1⟩

/-- A browser showing an Error popup in Normal mode with focus on the
snapshot list. -/
def popupBrowser : SnapshotBrowser :=
  { baseBrowser with popup_state := PopupState.Error "boom" }

/-- C2 counterexample: with the Error popup active, the Tab navigation key
still advances the focus and the 'e' editing key still enters edit mode —
the FocusField/InputMode keys are not suppressed. -/
theorem C2_counterexample :
    popupBrowser.popup_state ≠ PopupState.Hidden ∧
    popupBrowser.input_mode = InputMode.Normal ∧
    popupBrowser.focus = FocusField.SnapshotList ∧
    (handleKey popupBrowser KeyCode.tab).1.focus = FocusField.Bucket ∧
    (handleKey popupBrowser (KeyCode.char 'e')).1.input_mode = InputMode.Editing := by
  refine ⟨by decide, rfl, rfl, rfl, by decide⟩

/-- C2 (amended): while a popup other than Hidden is active the dispatch
table is not replaced: the popup's own keys ('y'/'n' on ConfirmCancel,
etc.) and the global quit key work, but FocusField navigation keys (Tab,
'n' outside its popup arms) and InputMode editing keys remain active and
are dispatched exactly as in the base state. -/
theorem C2_popup_dispatch (b : SnapshotBrowser)
    (hmode : b.input_mode = InputMode.Normal)
    (_hpopup : b.popup_state ≠ PopupState.Hidden) :
    ((handleKey b KeyCode.tab).1.focus = advanceFocus b.focus) ∧
    ((handleKey b (KeyCode.char 'q')).2 = Action.quit) ∧
    (∀ s p r, b.popup_state = PopupState.ConfirmCancel s p r →
      (handleKey b (KeyCode.char 'y')).1.popup_state = PopupState.Hidden ∧
      (handleKey b (KeyCode.char 'y')).1.temp_file = Option.none ∧
      (handleKey b (KeyCode.char 'n')).1.popup_state = PopupState.Downloading s p r) ∧
    (∀ m, b.popup_state = PopupState.Error m →
      (handleKey b (KeyCode.char 'n')).1.focus = FocusField.PgDbName ∧
      (handleKey b (KeyCode.char 'r')).2 = Action.refreshKey) := by
  refine ⟨?_, ?_, ?_, ?_⟩
  · simp [handleKey, hmode, handleKeyNormal]
  · simp [handleKey, hmode, handleKeyNormal]
  · intro s p r hcc
    refine ⟨?_, ?_, ?_⟩ <;>
      simp [handleKey, hmode, handleKeyNormal, hcc, PopupState.isConfirmCancel]
  · intro m hm
    constructor <;>
      simp [handleKey, hmode, handleKeyNormal, hm, PopupState.isConfirmCancel]

/-- C2 witness: the popup-aware arms evaluated on the Error-popup
browser. -/
theorem C2_popup_dispatch_witness :
    (popupBrowser.input_mode = InputMode.Normal ∧
      popupBrowser.popup_state ≠ PopupState.Hidden) ∧
    (handleKey popupBrowser KeyCode.tab).1.focus = advanceFocus popupBrowser.focus ∧
    (handleKey popupBrowser (KeyCode.char 'q')).2 = Action.quit := by
  have h := C2_popup_dispatch popupBrowser rfl (by decide)
  exact ⟨⟨rfl, by decide⟩, h.1, h.2.1⟩

/-- `client_of_config` never reads the error message. -/
theorem client_of_config_error_irrel (c : S3Config) (m : Option String) :
    client_of_config { c with error_message := m } = client_of_config c := rfl

/-- Committing a field never touches the client handle, the snapshot list
or the selection. -/
theorem commitField_preserves (b : SnapshotBrowser) :
    (commitField b).s3_client = b.s3_client ∧
    (commitField b).snapshots = b.snapshots ∧
    (commitField b).selected_idx = b.selected_idx := by
  unfold commitField
  repeat' split
  all_goals exact ⟨rfl, rfl, rfl⟩

/-- A browser mid-edit of the bucket field with a live client and an
otherwise valid configuration. -/
def editBrowser : SnapshotBrowser :=
  { dlBrowser with
    input_mode := InputMode.Editing
    focus := FocusField.Bucket
    input_buffer := "newbucket" }

/-- C3 counterexample: committing a bucket edit on a valid configuration
leaves a freshly built client present — not absent — immediately after the
commit completes. -/
theorem C3_counterexample :
    editBrowser.s3_client ≠ Option.none ∧
    ((handleKey editBrowser KeyCode.enter).1.s3_client =
      some (client_of_config { cfgFull with bucket := "newbucket" })) ∧
    (handleKey editBrowser KeyCode.enter).1.s3_client ≠ Option.none := by
  refine ⟨by decide, by decide, by decide⟩

/-- C3 (amended): committing an edit of any ObjectStoreConfig field never
clears the client handle; instead it re-runs client initialisation: when
the updated configuration passes validation a freshly built client is
present immediately after the commit, and when validation fails the
previous handle (if any) survives and the configuration's error message is
set. -/
theorem C3_commit_reinit (b : SnapshotBrowser)
    (hmode : b.input_mode = InputMode.Editing)
    (hfield : isS3Field b.focus) :
    (verify_s3_settings (commitField { b with input_mode := InputMode.Normal }).config
        = Except.ok () →
      (handleKey b KeyCode.enter).1.s3_client =
        some (client_of_config
          (commitField { b with input_mode := InputMode.Normal }).config)) ∧
    (∀ e, verify_s3_settings (commitField { b with input_mode := InputMode.Normal }).config
        = Except.error e →
      (handleKey b KeyCode.enter).1.s3_client = b.s3_client ∧
      (handleKey b KeyCode.enter).1.config.error_message = some e) := by
  have hne : ¬ b.focus = FocusField.SnapshotList := by
    cases hf : b.focus <;> simp_all [isS3Field]
  have hmain : handleKey b KeyCode.enter =
      (match init_s3_client (commitField { b with input_mode := InputMode.Normal }) with
        | (b, Except.ok _) => (b, Action.loadAfterCommit)
        | (b, Except.error _) => (b, Action.none)) := by
    simp [handleKey, hmode, handleKeyEditing, hne]
  constructor
  · intro hok
    rw [hmain]
    unfold init_s3_client
    rw [hok]
    simp [set_error, client_of_config_error_irrel]
  · intro e herr
    rw [hmain]
    unfold init_s3_client
    rw [herr]
    have hpres := commitField_preserves { b with input_mode := InputMode.Normal }
    simp [set_error]
    exact hpres.1

/-- C3 witness: the amended commit behaviour evaluated on the bucket edit
of `editBrowser`, whose updated configuration validates. -/
theorem C3_commit_reinit_witness :
    (editBrowser.input_mode = InputMode.Editing ∧ isS3Field editBrowser.focus ∧
      verify_s3_settings
        (commitField { editBrowser with input_mode := InputMode.Normal }).config
        = Except.ok ()) ∧
    (handleKey editBrowser KeyCode.enter).1.s3_client =
      some (client_of_config
        (commitField { editBrowser with input_mode := InputMode.Normal }).config) := by
  refine ⟨⟨rfl, by decide, rfl⟩, ?_⟩
  exact (C3_commit_reinit editBrowser rfl (by decide)).1 rfl

/-- C4 counterexample: a download whose response reports no content length
fails with the Error popup and yields no artifact, but the temporary-file
path *has* been recorded on the session (it is set before the request and
is not cleared in this branch). -/
theorem C4_counterexample :
    ((download_snapshot dlBrowser snapA "/tmp/pg-backup/backup.sql"
        (Except.ok { content_length := Option.none, chunks := [] })
        [] [] 0).result = Option.none) ∧
    ((download_snapshot dlBrowser snapA "/tmp/pg-backup/backup.sql"
        (Except.ok { content_length := Option.none, chunks := [] })
        [] [] 0).browser.popup_state =
      PopupState.Error "Could not determine file size") ∧
    ((download_snapshot dlBrowser snapA "/tmp/pg-backup/backup.sql"
        (Except.ok { content_length := Option.none, chunks := [] })
        [] [] 0).browser.temp_file = some "/tmp/pg-backup/backup.sql") ∧
    ((download_snapshot dlBrowser snapA "/tmp/pg-backup/backup.sql"
        (Except.ok { content_length := Option.none, chunks := [] })
        [] [] 0).browser.temp_file ≠ Option.none) := by
  refine ⟨rfl, rfl, rfl, by decide⟩

/-- C4 (amended): when the response carries no total content length the
download fails immediately with the Error popup, returns no artifact and
writes no data — but the temporary-file path was already recorded on the
session when the download started and remains recorded in this branch. -/
theorem C4_size_unknown (b : SnapshotBrowser) (snapshot : BackupMetadata)
    (temp_path : String) (r : GetObjectResp)
    (events : List (Option KeyCode)) (times : List ℚ) (t0 : ℚ)
    (hclient : b.s3_client ≠ Option.none)
    (hlen : r.content_length = Option.none) :
    ((download_snapshot b snapshot temp_path (Except.ok r) events times t0).result
        = Option.none) ∧
    ((download_snapshot b snapshot temp_path (Except.ok r) events times t0).browser.popup_state
        = PopupState.Error "Could not determine file size") ∧
    ((download_snapshot b snapshot temp_path (Except.ok r) events times t0).browser.temp_file
        = some temp_path) ∧
    ((download_snapshot b snapshot temp_path (Except.ok r) events times t0).written = 0) := by
  rcases hc : b.s3_client with _ | c
  · exact absurd hc hclient
  · unfold download_snapshot
    simp [hc, hlen]

/-- C4 witness: the size-unknown behaviour at the concrete browser and
response of the counterexample. -/
theorem C4_size_unknown_witness :
    (dlBrowser.s3_client ≠ Option.none ∧
      (GetObjectResp.mk Option.none [] : GetObjectResp).content_length = Option.none) ∧
    ((download_snapshot dlBrowser snapA "/tmp/pg-backup/backup.sql"
        (Except.ok (GetObjectResp.mk Option.none [])) [] [] 0).browser.temp_file
      = some "/tmp/pg-backup/backup.sql") := by
  refine ⟨⟨by decide, rfl⟩, ?_⟩
  exact (C4_size_unknown dlBrowser snapA "/tmp/pg-backup/backup.sql"
    (GetObjectResp.mk Option.none []) [] [] 0 (by decide) rfl).2.2.1

/-- C1 (code behaviour at the failing input): during a two-chunk download
the cancel key is pressed while the first chunk is processed and no
confirm/decline answer is ever given; the loop nevertheless pulls and
writes the second chunk (20 of 20 bytes written), completes the transfer,
reports Success and returns the artifact path — chunk reads are not
suspended and the ConfirmCancel popup is never answered, because the
chunk loop's `continue` re-enters the `while let` and the 'y'/'n' arms of
the dispatcher never run during the download. -/
theorem C1_cancel_not_suspended :
    ((download_snapshot dlBrowser snapA "/tmp/pg-backup/backup.sql"
        (Except.ok { content_length := some 20, chunks := [10, 10] })
        [some KeyCode.esc, Option.none] [1, 2] 0).written = 20) ∧
    ((download_snapshot dlBrowser snapA "/tmp/pg-backup/backup.sql"
        (Except.ok { content_length := some 20, chunks := [10, 10] })
        [some KeyCode.esc, Option.none] [1, 2] 0).result
      = some "/tmp/pg-backup/backup.sql") ∧
    ((download_snapshot dlBrowser snapA "/tmp/pg-backup/backup.sql"
        (Except.ok { content_length := some 20, chunks := [10, 10] })
        [some KeyCode.esc, Option.none] [1, 2] 0).browser.popup_state
      = PopupState.Success "Download complete") ∧
    ((download_snapshot dlBrowser snapA "/tmp/pg-backup/backup.sql"
        (Except.ok { content_length := some 20, chunks := [10, 10] })
        [some KeyCode.esc, Option.none] [1, 2] 0).browser.temp_file
      = some "/tmp/pg-backup/backup.sql") := by
  refine ⟨rfl, rfl, rfl, rfl⟩

/-! Preservation lemmas feeding the selection-safety induction. -/

/-- A state with the same snapshots and selection inherits the invariant. -/
theorem selInv_of_preserves {b b' : SnapshotBrowser}
    (h1 : b'.snapshots = b.snapshots) (h2 : b'.selected_idx = b.selected_idx)
    (h : SelInv b) : SelInv b' := by
  intro i hi
  rw [h1]
  exact h i (h2.symm.trans hi)

/-- `next` leaves the snapshot list unchanged. -/
theorem next_snapshots (b : SnapshotBrowser) : (next b).snapshots = b.snapshots := by
  unfold next
  repeat' split
  all_goals rfl

/-- `previous` leaves the snapshot list unchanged. -/
theorem previous_snapshots (b : SnapshotBrowser) :
    (previous b).snapshots = b.snapshots := by
  unfold previous
  repeat' split
  all_goals rfl

/-- `next` keeps the selection in range. -/
theorem next_selInv (b : SnapshotBrowser) (h : SelInv b) : SelInv (next b) := by
  intro i hi
  rw [next_snapshots b]
  cases hsel : b.selected_idx with
  | none =>
      by_cases hne : b.snapshots = []
      · simp [next, hsel, hne] at hi
      · simp [next, hsel, hne] at hi
        have := List.length_pos.mpr hne
        omega
  | some idx =>
      by_cases hlt : idx + 1 < b.snapshots.length
      · simp [next, hsel, hlt] at hi
        omega
      · simp [next, hsel, hlt] at hi
        have := h i (hsel.trans (by rw [hi]))
        exact this

/-- `previous` keeps the selection in range. -/
theorem previous_selInv (b : SnapshotBrowser) (h : SelInv b) : SelInv (previous b) := by
  intro i hi
  rw [previous_snapshots b]
  cases hsel : b.selected_idx with
  | none =>
      by_cases hne : b.snapshots = []
      · simp [previous, hsel, hne] at hi
      · simp [previous, hsel, hne] at hi
        have := List.length_pos.mpr hne
        omega
  | some idx =>
      by_cases hpos : idx > 0
      · simp [previous, hsel, hpos] at hi
        have := h idx hsel
        omega
      · simp [previous, hsel, hpos] at hi
        exact h i (hsel.trans (by rw [hi]))

/-- `init_s3_client` never touches the snapshot list or the selection. -/
theorem init_s3_client_preserves (b : SnapshotBrowser) :
    (init_s3_client b).1.snapshots = b.snapshots ∧
    (init_s3_client b).1.selected_idx = b.selected_idx := by
  unfold init_s3_client
  rcases hv : verify_s3_settings b.config with e | u <;> simp [set_error]

/-- A listing keeps the selection in range. -/
theorem load_snapshots_selInv (b : SnapshotBrowser)
    (resp : Except String (List S3Object)) (h : SelInv b) :
    SelInv (load_snapshots b resp).1 := by
  rcases load_snapshots_cases b resp with ⟨hs, hsel⟩ | ⟨contents, -, -, hs, hsel⟩
  · exact selInv_of_preserves hs hsel h
  · intro i hi
    rw [hs]
    rw [hsel] at hi
    exact adjust_selection_lt _ _ _ hi

set_option maxHeartbeats 1600000 in
/-- The Normal-mode dispatcher either moves the selection via
`next`/`previous` or leaves the snapshot list and selection unchanged. -/
theorem handleKeyNormal_shape (b : SnapshotBrowser) (k : KeyCode) :
    (handleKeyNormal b k).1 = next b ∨ (handleKeyNormal b k).1 = previous b ∨
    ((handleKeyNormal b k).1.snapshots = b.snapshots ∧
      (handleKeyNormal b k).1.selected_idx = b.selected_idx) := by
  cases k with
  | char c =>
      simp only [handleKeyNormal]
      by_cases h1 : c = 'q'
      · rw [if_pos h1]; exact Or.inr (Or.inr ⟨rfl, rfl⟩)
      rw [if_neg h1]
      by_cases h2 : c = 'y' ∧ b.popup_state.isConfirmCancel
      · rw [if_pos h2]; exact Or.inr (Or.inr ⟨rfl, rfl⟩)
      rw [if_neg h2]
      by_cases h3 : c = 'y' ∧ b.popup_state = PopupState.ConfirmRestore
      · rw [if_pos h3]
        by_cases h3b : (selected_snapshot b).isSome = true
        · rw [if_pos h3b]; exact Or.inr (Or.inr ⟨rfl, rfl⟩)
        · rw [if_neg h3b]; exact Or.inr (Or.inr ⟨rfl, rfl⟩)
      rw [if_neg h3]
      by_cases h4 : c = 'n'
      · rw [if_pos h4]
        cases hp : b.popup_state <;> exact Or.inr (Or.inr ⟨rfl, rfl⟩)
      rw [if_neg h4]
      by_cases h5 : c = 't'
      · rw [if_pos h5]
        by_cases h5a : isS3Field b.focus = true
        · rw [if_pos h5a]; exact Or.inr (Or.inr ⟨rfl, rfl⟩)
        rw [if_neg h5a]
        by_cases h5b : isPgField b.focus = true
        · rw [if_pos h5b]; exact Or.inr (Or.inr ⟨rfl, rfl⟩)
        · rw [if_neg h5b]; exact Or.inr (Or.inr ⟨rfl, rfl⟩)
      rw [if_neg h5]
      by_cases h6 : c = 'e' ∧ b.focus ≠ FocusField.SnapshotList
      · rw [if_pos h6]; exact Or.inr (Or.inr ⟨rfl, rfl⟩)
      rw [if_neg h6]
      by_cases h7 : c = 'b'
      · rw [if_pos h7]; exact Or.inr (Or.inr ⟨rfl, rfl⟩)
      rw [if_neg h7]
      by_cases h8 : c = 'R'
      · rw [if_pos h8]; exact Or.inr (Or.inr ⟨rfl, rfl⟩)
      rw [if_neg h8]
      by_cases h9 : c = 'x'
      · rw [if_pos h9]; exact Or.inr (Or.inr ⟨rfl, rfl⟩)
      rw [if_neg h9]
      by_cases h10 : c = 'j' ∧ b.focus = FocusField.SnapshotList
      · rw [if_pos h10]; exact Or.inl rfl
      rw [if_neg h10]
      by_cases h11 : c = 'k' ∧ b.focus = FocusField.SnapshotList
      · rw [if_pos h11]; exact Or.inr (Or.inl rfl)
      rw [if_neg h11]
      by_cases h12 : c = 'E'
      · rw [if_pos h12]; exact Or.inr (Or.inr ⟨rfl, rfl⟩)
      rw [if_neg h12]
      by_cases h13 : c = 'a'
      · rw [if_pos h13]; exact Or.inr (Or.inr ⟨rfl, rfl⟩)
      rw [if_neg h13]
      by_cases h14 : c = 's'
      · rw [if_pos h14]; exact Or.inr (Or.inr ⟨rfl, rfl⟩)
      rw [if_neg h14]
      by_cases h15 : c = 'h'
      · rw [if_pos h15]; exact Or.inr (Or.inr ⟨rfl, rfl⟩)
      rw [if_neg h15]
      by_cases h16 : c = 'p'
      · rw [if_pos h16]; exact Or.inr (Or.inr ⟨rfl, rfl⟩)
      rw [if_neg h16]
      by_cases h17 : c = 'u'
      · rw [if_pos h17]; exact Or.inr (Or.inr ⟨rfl, rfl⟩)
      rw [if_neg h17]
      by_cases h18 : c = 'f'
      · rw [if_pos h18]; exact Or.inr (Or.inr ⟨rfl, rfl⟩)
      rw [if_neg h18]
      by_cases h19 : c = 'l'
      · rw [if_pos h19]; exact Or.inr (Or.inr ⟨rfl, rfl⟩)
      rw [if_neg h19]
      by_cases h20 : c = 'r'
      · rw [if_pos h20]; exact Or.inr (Or.inr ⟨rfl, rfl⟩)
      rw [if_neg h20]
      by_cases h21 : c = 'e'
      · rw [if_pos h21]; exact Or.inr (Or.inr ⟨rfl, rfl⟩)
      · rw [if_neg h21]; exact Or.inr (Or.inr ⟨rfl, rfl⟩)
  | esc =>
      simp only [handleKeyNormal]
      cases hp : b.popup_state <;> exact Or.inr (Or.inr ⟨rfl, rfl⟩)
  | enter =>
      simp only [handleKeyNormal]
      by_cases h : b.focus = FocusField.SnapshotList ∧ (selected_snapshot b).isSome
      · rw [if_pos h]; exact Or.inr (Or.inr ⟨rfl, rfl⟩)
      · rw [if_neg h]; exact Or.inr (Or.inr ⟨rfl, rfl⟩)
  | tab => exact Or.inr (Or.inr ⟨rfl, rfl⟩)
  | down =>
      simp only [handleKeyNormal]
      by_cases h : b.focus = FocusField.SnapshotList
      · rw [if_pos h]; exact Or.inl rfl
      · rw [if_neg h]; exact Or.inr (Or.inr ⟨rfl, rfl⟩)
  | up =>
      simp only [handleKeyNormal]
      by_cases h : b.focus = FocusField.SnapshotList
      · rw [if_pos h]; exact Or.inr (Or.inl rfl)
      · rw [if_neg h]; exact Or.inr (Or.inr ⟨rfl, rfl⟩)
  | backspace => exact Or.inr (Or.inr ⟨rfl, rfl⟩)
  | null => exact Or.inr (Or.inr ⟨rfl, rfl⟩)

/-- The Editing-mode dispatcher never touches the snapshot list or the
selection. -/
theorem handleKeyEditing_preserves (b : SnapshotBrowser) (k : KeyCode) :
    (handleKeyEditing b k).1.snapshots = b.snapshots ∧
    (handleKeyEditing b k).1.selected_idx = b.selected_idx := by
  cases k with
  | enter =>
      simp only [handleKeyEditing]
      split_ifs with hf
      · exact ⟨rfl, rfl⟩
      · rcases hinit : init_s3_client (commitField { b with input_mode := InputMode.Normal })
          with ⟨b2, r⟩
        have h1 := commitField_preserves { b with input_mode := InputMode.Normal }
        have h2 := init_s3_client_preserves (commitField { b with input_mode := InputMode.Normal })
        rw [hinit] at h2
        rcases r with e | u <;>
          exact ⟨h2.1.trans h1.2.1, h2.2.trans h1.2.2⟩
  | char c => exact ⟨rfl, rfl⟩
  | backspace => exact ⟨rfl, rfl⟩
  | esc => exact ⟨rfl, rfl⟩
  | tab => exact ⟨rfl, rfl⟩
  | down => exact ⟨rfl, rfl⟩
  | up => exact ⟨rfl, rfl⟩
  | null => exact ⟨rfl, rfl⟩

/-- Key dispatch keeps the selection in range. -/
theorem handleKey_selInv (b : SnapshotBrowser) (k : KeyCode) (h : SelInv b) :
    SelInv (handleKey b k).1 := by
  unfold handleKey
  cases hm : b.input_mode with
  | Normal =>
      rcases handleKeyNormal_shape b k with hs | hs | ⟨h1, h2⟩
      · rw [hs]
        exact next_selInv b h
      · rw [hs]
        exact previous_selInv b h
      · exact selInv_of_preserves h1 h2 h
  | Editing =>
      have hp := handleKeyEditing_preserves b k
      exact selInv_of_preserves hp.1 hp.2 h

/-- `test_s3_connection` never touches the snapshot list or selection. -/
theorem test_s3_preserves (b : SnapshotBrowser) (resp : Except String (List String)) :
    (test_s3_connection b resp).1.snapshots = b.snapshots ∧
    (test_s3_connection b resp).1.selected_idx = b.selected_idx := by
  unfold test_s3_connection
  rcases hc : b.s3_client with _ | c
  · simp only [hc]
    unfold init_s3_client
    rcases hv : verify_s3_settings b.config with e | u
    · simp [set_error]
    · rcases resp with e | buckets <;> simp [set_error]
  · simp only [hc]
    rcases resp with e | buckets <;> simp

/-- The run_app wrapper around the S3 test preserves list and selection. -/
theorem run_test_s3_preserves (b : SnapshotBrowser) (resp : Except String (List String)) :
    (run_test_s3 b resp).snapshots = b.snapshots ∧
    (run_test_s3 b resp).selected_idx = b.selected_idx := by
  unfold run_test_s3
  rcases ht : test_s3_connection b resp with ⟨b2, r⟩
  have hp := test_s3_preserves b resp
  rw [ht] at hp
  rcases r with e | u <;> simpa using hp

/-- `test_pg_connection` never touches the snapshot list or selection. -/
theorem test_pg_preserves (b : SnapshotBrowser) :
    (test_pg_connection b).1.snapshots = b.snapshots ∧
    (test_pg_connection b).1.selected_idx = b.selected_idx := by
  unfold test_pg_connection
  split_ifs <;> exact ⟨rfl, rfl⟩

/-- The run_app wrapper around the PostgreSQL test preserves list and
selection. -/
theorem run_test_pg_preserves (b : SnapshotBrowser) :
    (run_test_pg b).snapshots = b.snapshots ∧
    (run_test_pg b).selected_idx = b.selected_idx := by
  unfold run_test_pg
  rcases ht : test_pg_connection b with ⟨b2, r⟩
  have hp := test_pg_preserves b
  rw [ht] at hp
  rcases r with e | u <;> simpa using hp

/-- The 'r' refresh keeps the selection in range. -/
theorem run_refresh_selInv (b : SnapshotBrowser)
    (resp : Except String (List S3Object)) (h : SelInv b) :
    SelInv (run_refresh b resp) := by
  unfold run_refresh
  rcases hl : load_snapshots b resp with ⟨b2, r⟩
  have h2 := load_snapshots_selInv b resp h
  rw [hl] at h2
  rcases r with e | u
  · intro i hi
    exact h2 i hi
  · exact h2

/-- The download chunk loop never touches the snapshot list or the
selection of the browser it threads. -/
theorem download_loop_preserves (snapshot : BackupMetadata) (temp_path : String)
    (total : Int) (chunks : List Nat) :
    ∀ (events : List (Option KeyCode)) (times : List ℚ) (b : SnapshotBrowser)
      (downloaded : Nat) (lu : ℚ) (lb : Nat) (cr : ℚ),
      (download_loop snapshot temp_path total chunks events times b
          downloaded lu lb cr).browser.snapshots = b.snapshots ∧
      (download_loop snapshot temp_path total chunks events times b
          downloaded lu lb cr).browser.selected_idx = b.selected_idx := by
  induction chunks with
  | nil => intro events times b downloaded lu lb cr; exact ⟨rfl, rfl⟩
  | cons chunk rest ih =>
      intro events times b downloaded lu lb cr
      unfold download_loop
      dsimp only
      split_ifs <;>
        first
        | exact ⟨(ih _ _ _ _ _ _ _).1, (ih _ _ _ _ _ _ _).2⟩
        | (cases hp : b.popup_state <;>
            first
            | exact ⟨rfl, rfl⟩
            | exact ⟨(ih _ _ _ _ _ _ _).1, (ih _ _ _ _ _ _ _).2⟩)

/-- `download_snapshot` never touches the snapshot list or the selection. -/
theorem download_snapshot_preserves (b : SnapshotBrowser) (snapshot : BackupMetadata)
    (temp_path : String) (resp : Except String GetObjectResp)
    (events : List (Option KeyCode)) (times : List ℚ) (t0 : ℚ) :
    (download_snapshot b snapshot temp_path resp events times t0).browser.snapshots
      = b.snapshots ∧
    (download_snapshot b snapshot temp_path resp events times t0).browser.selected_idx
      = b.selected_idx := by
  rcases hc : b.s3_client with _ | c
  · unfold download_snapshot
    simp [hc]
  · rcases resp with e | ⟨cl, chunks⟩
    · unfold download_snapshot
      simp [hc]
    · rcases cl with _ | total
      · unfold download_snapshot
        simp [hc]
      · unfold download_snapshot
        simp only [hc]
        have hp := download_loop_preserves snapshot temp_path total chunks events times
          { b with s3_client := some c,
                   popup_state := PopupState.Downloading snapshot 0 0,
                   temp_file := some temp_path } 0 t0 0 0
        exact ⟨hp.1, hp.2⟩

/-- The Success timeout never touches the snapshot list or the selection. -/
theorem clear_success_preserves (b : SnapshotBrowser) :
    (clear_success b).snapshots = b.snapshots ∧
    (clear_success b).selected_idx = b.selected_idx := by
  unfold clear_success
  cases hp : b.popup_state <;> exact ⟨rfl, rfl⟩

/-- C7: in every reachable session state the selection is absent or within
`[0, len(snapshots))`; moving the selection preserves the invariant and is
a no-op at both ends; with exactly one snapshot selected at index 0,
moving up and then down leaves the index at 0. -/
theorem C7_selection_safe :
    (∀ b : SnapshotBrowser, Reachable b → SelInv b) ∧
    (∀ b : SnapshotBrowser, SelInv b → SelInv (next b) ∧ SelInv (previous b)) ∧
    (∀ b : SnapshotBrowser, ∀ i, b.selected_idx = some i →
      i + 1 = b.snapshots.length → next b = b) ∧
    (∀ b : SnapshotBrowser, b.selected_idx = some 0 → previous b = b) ∧
    (next (previous
      { dlBrowser with snapshots := [snapA], selected_idx := some 0 })).selected_idx
      = some 0 := by
  refine ⟨?_, fun b h => ⟨next_selInv b h, previous_selInv b h⟩, ?_, ?_, rfl⟩
  · intro b hb
    induction hb with
    | init config pg =>
        intro i hi
        simp [SnapshotBrowser.new] at hi
    | key b k _ ih => exact handleKey_selInv b k ih
    | testS3 b resp _ ih =>
        exact selInv_of_preserves (run_test_s3_preserves b resp).1
          (run_test_s3_preserves b resp).2 ih
    | testPg b _ ih =>
        exact selInv_of_preserves (run_test_pg_preserves b).1
          (run_test_pg_preserves b).2 ih
    | refresh b resp _ ih => exact run_refresh_selInv b resp ih
    | load b resp _ ih => exact load_snapshots_selInv b resp ih
    | download b snapshot temp_path resp events times t0 _ ih =>
        exact selInv_of_preserves
          (download_snapshot_preserves b snapshot temp_path resp events times t0).1
          (download_snapshot_preserves b snapshot temp_path resp events times t0).2 ih
    | success_timeout b _ ih =>
        exact selInv_of_preserves (clear_success_preserves b).1
          (clear_success_preserves b).2 ih
  · intro b i hsel hlen
    unfold next
    rw [hsel]
    simp [show ¬(i + 1 < b.snapshots.length) by omega]
  · intro b hsel
    unfold previous
    rw [hsel]
    simp

/-- C7 witness: the invariant holds at the freshly created browser, and
`previous` is a no-op at index 0 of the one-snapshot browser. -/
theorem C7_selection_safe_witness :
    (Reachable baseBrowser ∧ SelInv baseBrowser) ∧
    (({ dlBrowser with snapshots := [snapA], selected_idx := some 0 }
        : SnapshotBrowser).selected_idx = some 0 ∧
      previous { dlBrowser with snapshots := [snapA], selected_idx := some 0 } =
        { dlBrowser with snapshots := [snapA], selected_idx := some 0 }) := by
  have hinit : Reachable baseBrowser := Reachable.init cfgFull pgDefault
  exact ⟨⟨hinit, C7_selection_safe.1 baseBrowser hinit⟩,
    rfl, C7_selection_safe.2.2.2.1 _ rfl⟩

end PgOps
